import Mathlib

/-!
Verification of the VTS host-controller console (harnesses/host_controller)
against its natural-language specification.  The Python source is shallowly
embedded: dicts become association lists, threads become records carrying the
attributes the code reads, background loops become functions over traces of
iteration outcomes, and exceptions become explicit result constructors.
-/

/-! ## Python dict model

`console.py` keeps its shared session state in plain Python dicts with string
keys (`device_image_info`, `test_suite_info`, `tools_info`).  We model a dict
as an association list in which the first binding of a key is the visible one,
`dset` is `d[k] = v`, and `dupdate` is `d.update(other)` (each binding of
`other` is written into `d` in iteration order).
-/

def dlookup : List (String × String) → String → Option String
  | [], _ => none
  | (k0, v0) :: rest, k => if k0 = k then some v0 else dlookup rest k

def dset : List (String × String) → String → String → List (String × String)
  | [], k, v => [(k, v)]
  | (k0, v0) :: rest, k, v =>
      if k0 = k then (k, v) :: rest else (k0, v0) :: dset rest k v

def dupdate (m upd : List (String × String)) : List (String × String) :=
  upd.foldl (fun acc kv => dset acc kv.1 kv.2) m

/-- The value the last binding of `k` in the list would leave in a Python
dict built by inserting the bindings in order. -/
def dlookupLast : List (String × String) → String → Option String
  | [], _ => none
  | (k0, v0) :: rest, k =>
      match dlookupLast rest k with
      | some v => some v
      | none => if k0 = k then some v0 else none

theorem dlookup_dset (m : List (String × String)) (k v : String) (k2 : String) :
    dlookup (dset m k v) k2 = if k = k2 then some v else dlookup m k2 := by
  induction m with
  | nil => simp [dset, dlookup]
  | cons hd tl ih =>
      obtain ⟨k0, v0⟩ := hd
      by_cases h0 : k0 = k <;> by_cases h2 : k = k2 <;>
        simp_all [dset, dlookup]

theorem dlookup_eq_none_of_not_mem (tl : List (String × String)) (k : String)
    (h : k ∉ tl.map Prod.fst) : dlookup tl k = none := by
  induction tl with
  | nil => rfl
  | cons hd tl ih =>
      obtain ⟨k0, v0⟩ := hd
      simp only [List.map_cons, List.mem_cons, not_or] at h
      simp only [dlookup]
      rw [if_neg (fun hh => h.1 hh.symm)]
      exact ih h.2

theorem dlookupLast_eq_none_of_dlookup_none (u : List (String × String))
    (k : String) (h : dlookup u k = none) : dlookupLast u k = none := by
  induction u with
  | nil => rfl
  | cons hd tl ih =>
      obtain ⟨k0, v0⟩ := hd
      simp only [dlookup] at h
      by_cases h0 : k0 = k
      · simp [h0] at h
      · rw [if_neg h0] at h
        simp [dlookupLast, ih h, h0]

theorem dlookup_dupdate (u m : List (String × String)) (k : String) :
    dlookup (dupdate m u) k =
      match dlookupLast u k with
      | some v => some v
      | none => dlookup m k := by
  induction u generalizing m with
  | nil => simp [dupdate, dlookupLast]
  | cons hd tl ih =>
      obtain ⟨k0, v0⟩ := hd
      have step : dupdate m ((k0, v0) :: tl) = dupdate (dset m k0 v0) tl := rfl
      rw [step, ih]
      cases htl : dlookupLast tl k with
      | some v => simp [dlookupLast, htl]
      | none =>
          simp only [dlookupLast, htl, dlookup_dset]
          by_cases h : k0 = k <;> simp [h]

theorem dlookupLast_eq_dlookup_of_nodup (u : List (String × String))
    (hnd : (u.map Prod.fst).Nodup) (k : String) :
    dlookupLast u k = dlookup u k := by
  induction u with
  | nil => rfl
  | cons hd tl ih =>
      obtain ⟨k0, v0⟩ := hd
      simp only [List.map_cons, List.nodup_cons] at hnd
      obtain ⟨hk0, htl⟩ := hnd
      simp only [dlookupLast, dlookup, ih htl]
      by_cases h : k0 = k
      · subst h
        rw [dlookup_eq_none_of_not_mem tl k0 hk0]
      · rw [if_neg h]
        cases dlookup tl k <;> simp [h]

/-! ## Shared session state and the fetch merge (C5)

`Console.do_fetch` (console.py lines 410-459) ends, for every provider branch
that succeeds, with

    self.fetch_info["branch"] = args.branch
    self.fetch_info["target"] = args.target
    self.device_image_info.update(device_images)
    self.test_suite_info.update(test_suites)

(lines 446-450); the per-branch code before that also sets
`self.fetch_info["build_id"]`.  `fetchMerge` embeds that tail.
-/

structure SessionState where
  device_image_info : List (String × String)
  test_suite_info : List (String × String)
  tools_info : List (String × String)
  fetch_info_build_id : Option String
  fetch_info_branch : Option String
  fetch_info_target : Option String
  deriving DecidableEq

/-- The merge step at the end of a successful `do_fetch` (console.py lines
424/428/433/441 for `build_id` and 446-450 for the rest). -/
def fetchMerge (st : SessionState) (build_id branch target : Option String)
    (device_images test_suites : List (String × String)) : SessionState :=
  { st with
    fetch_info_build_id := build_id
    fetch_info_branch := branch
    fetch_info_target := target
    device_image_info := dupdate st.device_image_info device_images
    test_suite_info := dupdate st.test_suite_info test_suites }

def emptySessionState : SessionState :=
  { device_image_info := []
    test_suite_info := []
    tools_info := []
    fetch_info_build_id := none
    fetch_info_branch := none
    fetch_info_target := none }

/-- C5.  For every successful fetch, the returned artifact map is merged
accumulatively into the shared device-image and test-suite maps: every key
reported by the fetch is set to its new path, every key not reported keeps its
previous value; and the concrete chain of the spec — fetch a:/x, then b:/y,
then a:/z — leaves a at /z and b at /y. -/
theorem fetch_merge_accumulative :
    (∀ (st : SessionState) (bid br tg : Option String)
        (di ts : List (String × String)),
      ((di.map Prod.fst).Nodup →
        ∀ k v, dlookup di k = some v →
          dlookup (fetchMerge st bid br tg di ts).device_image_info k = some v) ∧
      (∀ k, dlookup di k = none →
        dlookup (fetchMerge st bid br tg di ts).device_image_info k =
          dlookup st.device_image_info k) ∧
      ((ts.map Prod.fst).Nodup →
        ∀ k v, dlookup ts k = some v →
          dlookup (fetchMerge st bid br tg di ts).test_suite_info k = some v) ∧
      (∀ k, dlookup ts k = none →
        dlookup (fetchMerge st bid br tg di ts).test_suite_info k =
          dlookup st.test_suite_info k)) ∧
    (let st1 := fetchMerge emptySessionState none none none [("a", "/x")] []
     let st2 := fetchMerge st1 none none none [("b", "/y")] []
     let st3 := fetchMerge st2 none none none [("a", "/z")] []
     dlookup st2.device_image_info "a" = some "/x" ∧
     dlookup st2.device_image_info "b" = some "/y" ∧
     dlookup st3.device_image_info "a" = some "/z" ∧
     dlookup st3.device_image_info "b" = some "/y") := by
  constructor
  · intro st bid br tg di ts
    refine ⟨?_, ?_, ?_, ?_⟩
    · intro hnd k v hk
      simp [fetchMerge, dlookup_dupdate,
        dlookupLast_eq_dlookup_of_nodup di hnd, hk]
    · intro k hk
      simp [fetchMerge, dlookup_dupdate,
        dlookupLast_eq_none_of_dlookup_none di k hk]
    · intro hnd k v hk
      simp [fetchMerge, dlookup_dupdate,
        dlookupLast_eq_dlookup_of_nodup ts hnd, hk]
    · intro k hk
      simp [fetchMerge, dlookup_dupdate,
        dlookupLast_eq_none_of_dlookup_none ts k hk]
  · refine ⟨?_, ?_, ?_, ?_⟩ <;> rfl

/-- Witness for `fetch_merge_accumulative`: the universally quantified part,
applied at a concrete state and fetch result. -/
theorem fetch_merge_accumulative_witness :
    dlookup (fetchMerge emptySessionState none none none
        [("boot.img", "/b")] []).device_image_info "boot.img" = some "/b" := by
  exact (fetch_merge_accumulative.1 emptySessionState none none none
      [("boot.img", "/b")] []).1 (by simp) "boot.img" "/b" (by rfl)

/-! ## Session registry (C1, C2)

`Console.do_build` (console.py lines 723-770) and `Console.do_config` (lines
894-943) keep one dict each (`self.build_thread`, `self.schedule_thread`)
mapping an integer session id to a `threading.Thread`.  The `start` branch of
either command:

  - raises `ConsoleArgumentError` when `args.interval <= 0` (before anything
    is registered);
  - when `args.id is None`, assigns `1` if the dict is falsy (empty) and
    `max(dict keys) + 1` otherwise; else uses `int(args.id)`;
  - when the id is in the dict and the stored thread has no `keep_running`
    attribute (the thread is considered still running, since only `stop` ever
    sets that attribute), prints the already-running message and returns
    without touching the dict or spawning a thread;
  - otherwise stores a freshly created thread (no `keep_running` attribute)
    under the id and starts it.

The `stop` branch prints a message when `args.id is None`, and otherwise sets
`keep_running = False` on the stored thread (a `KeyError` if the id is not
registered).  The two commands differ only in their printed text, so one
embedding covers both registries.
-/

/-- A registered `threading.Thread`: `keep_running = none` models the absence
of the attribute (a fresh, still-running thread), `some false` a thread whose
stop flag has been set. -/
structure SessionThread where
  keep_running : Option Bool
  deriving DecidableEq

/-- Lookup in the id-keyed session dict. -/
def rlookup : List (Int × SessionThread) → Int → Option SessionThread
  | [], _ => none
  | (k0, t0) :: rest, k => if k0 = k then some t0 else rlookup rest k

/-- Assignment `d[id] = thread` in the id-keyed session dict. -/
def rset : List (Int × SessionThread) → Int → SessionThread →
    List (Int × SessionThread)
  | [], k, t => [(k, t)]
  | (k0, t0) :: rest, k, t =>
      if k0 = k then (k, t) :: rest else (k0, t0) :: rset rest k t

/-- Python `max(d)` over the keys of a non-empty session dict (`0` for the
empty dict, on which the code never calls it). -/
def rmaxKey : List (Int × SessionThread) → Int
  | [] => 0
  | [(k, _)] => k
  | (k, _) :: rest => max k (rmaxKey rest)

/-- Outcome of the `start` branch of `do_build`/`do_config`. -/
inductive StartOutcome
  | invalidInterval
  | alreadyRunning (id : Int)
  | started (id : Int)
  deriving DecidableEq

/-- The `start` branch of `do_build` (console.py lines 736-765) and of
`do_config` (lines 908-938): returns the updated registry and the outcome.
A thread is spawned exactly when the outcome is `started`. -/
def startUpdate (reg : List (Int × SessionThread)) (idArg : Option Int)
    (interval : Int) : List (Int × SessionThread) × StartOutcome :=
  if interval ≤ 0 then (reg, .invalidInterval)
  else
    let id := match idArg with
      | none => if reg.isEmpty then 1 else rmaxKey reg + 1
      | some i => i
    match rlookup reg id with
    | some t =>
        if t.keep_running.isNone then (reg, .alreadyRunning id)
        else (rset reg id ⟨none⟩, .started id)
    | none => (rset reg id ⟨none⟩, .started id)

/-- Outcome of the `stop` branch of `do_build`/`do_config`. -/
inductive StopOutcome
  | noId
  | keyError (id : Int)
  | stopped (id : Int)
  deriving DecidableEq

/-- The `stop` branch of `do_build` (console.py lines 766-770) and of
`do_config` (lines 939-943): sets `keep_running = False` on the registered
thread. -/
def stopUpdate (reg : List (Int × SessionThread)) (idArg : Option Int) :
    List (Int × SessionThread) × StopOutcome :=
  match idArg with
  | none => (reg, .noId)
  | some i =>
      match rlookup reg i with
      | none => (reg, .keyError i)
      | some _ => (rset reg i ⟨some false⟩, .stopped i)

theorem rlookup_rset (reg : List (Int × SessionThread)) (k : Int)
    (t : SessionThread) (k2 : Int) :
    rlookup (rset reg k t) k2 = if k = k2 then some t else rlookup reg k2 := by
  induction reg with
  | nil => simp [rset, rlookup]
  | cons hd tl ih =>
      obtain ⟨k0, t0⟩ := hd
      by_cases h0 : k0 = k <;> by_cases h2 : k = k2 <;>
        simp_all [rset, rlookup]

/-- Every registered id is at most `rmaxKey` of the registry. -/
theorem rlookup_le_rmaxKey (reg : List (Int × SessionThread)) (k : Int)
    (t : SessionThread) (h : rlookup reg k = some t) : k ≤ rmaxKey reg := by
  induction reg with
  | nil => simp [rlookup] at h
  | cons hd tl ih =>
      obtain ⟨k0, t0⟩ := hd
      simp only [rlookup] at h
      by_cases h0 : k0 = k
      · subst h0
        cases tl with
        | nil => simp [rmaxKey]
        | cons hd2 tl2 => simp [rmaxKey]
      · rw [if_neg h0] at h
        cases tl with
        | nil => simp [rlookup] at h
        | cons hd2 tl2 =>
            obtain ⟨k2, t2⟩ := hd2
            have := ih h
            simp only [rmaxKey] at this ⊢
            omega

/-- The id one above the maximum key is never registered. -/
theorem rlookup_rmaxKey_succ (reg : List (Int × SessionThread)) :
    rlookup reg (rmaxKey reg + 1) = none := by
  cases h : rlookup reg (rmaxKey reg + 1) with
  | none => rfl
  | some t =>
      have := rlookup_le_rmaxKey reg (rmaxKey reg + 1) t h
      omega

/-- C1.  In every reachable registry state: a `start` with an explicit id
whose entry is still flagged running (no `keep_running` attribute) fails with
the already-running message, leaving the registry unchanged and spawning
nothing; and after a `stop` of that id, a `start` with the same explicit id
succeeds and registers a fresh running session under that id. -/
theorem start_explicit_id_already_running
    (reg : List (Int × SessionThread)) (id : Int) (t : SessionThread)
    (interval : Int) (hint : 0 < interval)
    (hreg : rlookup reg id = some t) :
    (t.keep_running = none →
      startUpdate reg (some id) interval = (reg, .alreadyRunning id)) ∧
    (let afterStop := stopUpdate reg (some id)
     afterStop.2 = .stopped id ∧
     (startUpdate afterStop.1 (some id) interval).2 = .started id ∧
     rlookup (startUpdate afterStop.1 (some id) interval).1 id =
       some ⟨none⟩) := by
  have hnotle : ¬ interval ≤ 0 := by omega
  constructor
  · intro hrun
    simp [startUpdate, hnotle, hreg, hrun]
  · simp only [stopUpdate, hreg]
    refine ⟨by simp, ?_, ?_⟩
    · simp [startUpdate, hnotle, rlookup_rset, Option.isNone]
    · simp [startUpdate, hnotle, rlookup_rset, Option.isNone]

/-- Witness for `start_explicit_id_already_running` at a concrete registry
holding a running session 7. -/
theorem start_explicit_id_already_running_witness :
    startUpdate [((7 : Int), ⟨none⟩)] (some 7) 30 =
        ([((7 : Int), ⟨none⟩)], .alreadyRunning 7) ∧
    (startUpdate (stopUpdate [((7 : Int), ⟨none⟩)] (some 7)).1
        (some 7) 30).2 = .started 7 := by
  have h := start_explicit_id_already_running [((7 : Int), ⟨none⟩)] 7 ⟨none⟩ 30
      (by omega) (by rfl)
  exact ⟨h.1 rfl, h.2.2.1⟩

/-- C2.  A `start` with no explicit id assigns id 1 on an empty registry and
`max(existing ids) + 1` otherwise, and that id never collides with a
registered id, so the start succeeds; three id-less starts on the empty
registry are assigned 1, 2, 3 in order. -/
theorem start_auto_id_assignment :
    (∀ (reg : List (Int × SessionThread)) (interval : Int), 0 < interval →
      (startUpdate reg none interval).2 =
        .started (if reg.isEmpty then 1 else rmaxKey reg + 1) ∧
      rlookup reg (if reg.isEmpty then 1 else rmaxKey reg + 1) = none) ∧
    ((startUpdate [] none 30).2 = .started 1 ∧
     (startUpdate (startUpdate [] none 30).1 none 30).2 = .started 2 ∧
     (startUpdate (startUpdate (startUpdate [] none 30).1 none 30).1
        none 30).2 = .started 3) := by
  constructor
  · intro reg interval hint
    have hnotle : ¬ interval ≤ 0 := by omega
    by_cases hempty : reg.isEmpty
    · have : reg = [] := List.isEmpty_iff.mp hempty
      subst this
      simp [startUpdate, hnotle, rlookup]
    · have hnone := rlookup_rmaxKey_succ reg
      constructor
      · simp [startUpdate, hnotle, hempty, hnone]
      · simp [hempty, hnone]
  · refine ⟨rfl, rfl, rfl⟩

/-- Witness for `start_auto_id_assignment`: its general part applied to a
concrete one-entry registry. -/
theorem start_auto_id_assignment_witness :
    (startUpdate [((2 : Int), ⟨some false⟩)] none 30).2 = .started 3 := by
  have h := (start_auto_id_assignment.1 [((2 : Int), ⟨some false⟩)] 30
      (by omega)).1
  simpa [rmaxKey] using h

/-! ## Polling loops (C4)

`UpdateBuildLoop` (console.py lines 703-721), `UpdateConfigLoop` (lines
874-892) and `UpdateDeviceRepeat` (lines 1046-1061) share one shape:

    thread = threading.currentThread()
    while getattr(thread, 'keep_running', True):
        try:
            <unit of work>
        except (socket.error, remote_operation.RemoteOperationException,
                httplib2.HttpLib2Error, errors.HttpError) as e:
            logging.exception(e)
        time.sleep(update_interval)

Only the four listed exception classes are caught; any other exception
escapes the loop and kills the thread.  We embed the loop as a function over
a finite trace: iteration `i` observes the flag value
`getattr(thread, 'keep_running', True)` and then either succeeds or raises
an exception of some class.
-/

/-- Class of the exception raised by a unit of work, split into the four
classes the loops catch and everything else. -/
inductive ExcClass
  | socketError
  | remoteOperationException
  | httpLib2Error
  | apiclientHttpError
  | other (name : String)
  deriving DecidableEq

/-- Whether the `except` clause of the three update loops catches the
class. -/
def caughtByUpdateLoop : ExcClass → Bool
  | .socketError => true
  | .remoteOperationException => true
  | .httpLib2Error => true
  | .apiclientHttpError => true
  | .other _ => false

/-- Result of one execution of the unit of work. -/
inductive IterOutcome
  | ok
  | raised (e : ExcClass)
  deriving DecidableEq

/-- State of the loop after consuming a trace. -/
inductive LoopState
  | running
  | cancelled
  | crashed (e : ExcClass)
  deriving DecidableEq

/-- Runs the shared loop body of `UpdateBuildLoop`/`UpdateConfigLoop`/
`UpdateDeviceRepeat` over a finite trace; each element carries the value of
`getattr(thread, 'keep_running', True)` observed at the top of the iteration
and the outcome of the unit of work. -/
def updateLoopRun : List (Bool × IterOutcome) → LoopState
  | [] => .running
  | (flag, r) :: rest =>
      if flag then
        (match r with
         | .ok => updateLoopRun rest
         | .raised e =>
             if caughtByUpdateLoop e then updateLoopRun rest else .crashed e)
      else .cancelled

/-- C4 counterexample.  An iteration whose unit of work raises an exception
outside the caught classes (here a Python `TypeError`) terminates the loop
even though the cancellation flag was never set, so a failing iteration can
terminate the loop. -/
theorem update_loop_uncaught_failure_kills :
    updateLoopRun [(true, .raised (.other "TypeError"))] =
      .crashed (.other "TypeError") ∧
    decide (updateLoopRun [(true, .raised (.other "TypeError"))] =
      LoopState.running) = false := by
  exact ⟨rfl, by decide⟩

/-- C4 amended.  A failing iteration whose exception is one of the caught
classes (socket error, remote-operation error, httplib2 error, apiclient
HTTP error) never terminates the loop: over any trace of such iterations the
loop only stops by cancellation, and if the flag is never cleared it is still
running — in particular after 5 or more consecutive caught failures. -/
theorem update_loop_survives_caught_failures
    (trace : List (Bool × IterOutcome))
    (hcaught : ∀ p ∈ trace, ∀ e, p.2 = IterOutcome.raised e →
        caughtByUpdateLoop e = true) :
    (updateLoopRun trace = .running ∨ updateLoopRun trace = .cancelled) ∧
    ((∀ p ∈ trace, p.1 = true) → updateLoopRun trace = .running) := by
  induction trace with
  | nil => exact ⟨Or.inl rfl, fun _ => rfl⟩
  | cons hd tl ih =>
      obtain ⟨flag, r⟩ := hd
      have hhd := hcaught (flag, r) (List.mem_cons_self _ _)
      have htl := ih (fun p hp => hcaught p (List.mem_cons_of_mem _ hp))
      cases flag with
      | false =>
          refine ⟨Or.inr rfl, fun hflags => ?_⟩
          have := hflags (false, r) (List.mem_cons_self _ _)
          simp at this
      | true =>
          cases r with
          | ok =>
              refine ⟨htl.1, fun hflags => ?_⟩
              exact htl.2 (fun p hp => hflags p (List.mem_cons_of_mem _ hp))
          | raised e =>
              have hce : caughtByUpdateLoop e = true := hhd e rfl
              constructor
              · simpa [updateLoopRun, hce] using htl.1
              · intro hflags
                have := htl.2 (fun p hp => hflags p (List.mem_cons_of_mem _ hp))
                simpa [updateLoopRun, hce] using this

/-- Witness for `update_loop_survives_caught_failures`: a loop whose unit of
work fails with a caught (socket) error on 5 consecutive iterations, with the
cancellation flag never set, is still running afterward. -/
theorem update_loop_survives_caught_failures_witness :
    updateLoopRun (List.replicate 5 (true, .raised .socketError)) =
      .running := by
  exact (update_loop_survives_caught_failures
      (List.replicate 5 (true, .raised .socketError))
      (by
        intro p hp e he
        simp [List.eq_of_mem_replicate hp] at he
        subst he
        rfl)).2
      (by intro p hp; simp [List.eq_of_mem_replicate hp])

/-! ## The `build --update=single` dispatch (C3)

`do_build` (console.py lines 723-731) handles `--update=single` with

    if args.update == "single":
        self.UpdateDevice(
            args.account_id,
            args.branch,
            args.target,
            args.artifact_type)

that is, it invokes `Console.UpdateDevice` — whose signature (line 996) is
`UpdateDevice(self, server_type, host)`, two positional parameters — with
four positional arguments, rather than `Console.UpdateBuild` (line 666,
signature `UpdateBuild(self, account_id, branch, targets, artifact_type)`),
the unit of work that `UpdateBuildLoop` repeats.  We embed the dispatch as
the method call it performs.
-/

/-- A method call made by `do_build` in the `single` branch: the method name
and the positional arguments passed to it. -/
inductive BuildSingleCall
  | updateDevice (posArgs : List String)
  | updateBuild (posArgs : List String)
  deriving DecidableEq

/-- The call performed by the `single` branch of `do_build` (console.py lines
726-731). -/
def do_build_single (account_id branch target artifact_type : String) :
    BuildSingleCall :=
  .updateDevice [account_id, branch, target, artifact_type]

/-- Number of positional parameters (after `self`) of `Console.UpdateDevice`
(console.py line 996: `server_type, host`). -/
def updateDeviceParamCount : Nat := 2

/-- Number of positional parameters (after `self`) of `Console.UpdateBuild`
(console.py line 666: `account_id, branch, targets, artifact_type`). -/
def updateBuildParamCount : Nat := 4

def callArgCount : BuildSingleCall → Nat
  | .updateDevice l => l.length
  | .updateBuild l => l.length

/-- Whether a `BuildSingleCall` invokes `Console.UpdateBuild`. -/
def isUpdateBuildCall : BuildSingleCall → Bool
  | .updateDevice _ => false
  | .updateBuild _ => true

/-- C3.  Evaluating the `single` branch at a concrete invocation
(`build --update=single --branch=git_oc-release --target=sailfish-userdebug`
with the default account id and artifact type): the dispatcher does not run
the build-info unit of work (`UpdateBuild`); it calls `UpdateDevice`, and
with 4 positional arguments against a 2-parameter signature, which raises a
`TypeError` instead of performing any update. -/
theorem build_single_calls_update_device :
    do_build_single "543365459" "git_oc-release" "sailfish-userdebug" "device"
      = BuildSingleCall.updateDevice
          ["543365459", "git_oc-release", "sailfish-userdebug", "device"] ∧
    callArgCount (do_build_single "543365459" "git_oc-release"
        "sailfish-userdebug" "device") = 4 ∧
    updateDeviceParamCount = 2 ∧
    (∀ a b t ty, callArgCount (do_build_single a b t ty) = 4 ∧
      isUpdateBuildCall (do_build_single a b t ty) = false) := by
  refine ⟨rfl, rfl, rfl, ?_⟩
  intro a b t ty
  exact ⟨rfl, rfl⟩

/-! ## Flash default partition map (C6)

`do_flash` (console.py lines 582-589), when `args.current` is not a non-empty
list, builds

    partition_image = dict((image.rsplit(".img", 1)[0],
                            self.device_image_info[image])
                           for image in _DEFAULT_FLASH_IMAGES
                           if image in self.device_image_info)

where `_DEFAULT_FLASH_IMAGES` (lines 55-63) is
`[build_provider.FULL_ZIPFILE, "boot.img", "cache.img", "system.img",
"userdata.img", "vbmeta.img", "vendor.img"]`.  The `build_provider` module is
not part of the two source files, so the value of `FULL_ZIPFILE` is left as a
parameter; the claim only needs that it differs from the fetched image names.
-/

/-- Python `s.rsplit(".img", 1)[0]`: everything before the last occurrence of
the substring `.img`, or the whole string when it does not occur. -/
def rsplitImgHead (s : String) : String :=
  match ((List.range (s.data.length + 1)).filter
      (fun i => List.isPrefixOf [ '.', 'i', 'm', 'g' ] (s.data.drop i))).getLast? with
  | none => s
  | some i => String.mk (s.data.take i)

/-- `_DEFAULT_FLASH_IMAGES` (console.py lines 55-63), parametric in
`build_provider.FULL_ZIPFILE` whose module is outside the given sources. -/
def defaultFlashImages (fullZipfile : String) : List String :=
  [fullZipfile, "boot.img", "cache.img", "system.img", "userdata.img",
   "vbmeta.img", "vendor.img"]

/-- The default partition→image dict built by `do_flash` when `--current` is
not a non-empty list (console.py lines 586-589). -/
def flashDefaultPartitionImage (fullZipfile : String)
    (device_image_info : List (String × String)) : List (String × String) :=
  (defaultFlashImages fullZipfile).foldl
    (fun acc image =>
      match dlookup device_image_info image with
      | some p => dset acc (rsplitImgHead image) p
      | none => acc) []

/-- C6.  With fetched artifacts system.img -> /s and boot.img -> /b and no
`--current` pairs, the partition map is exactly system -> /s, boot -> /b:
the two fetched names stripped of their `.img` extension, and nothing else —
every default-list entry (including the full-zipfile entry, whatever its
name, provided it is not one of the two fetched names) absent from the fetch
map is excluded. -/
theorem flash_default_partition_map (fullZipfile : String)
    (h1 : fullZipfile ≠ "system.img") (h2 : fullZipfile ≠ "boot.img") :
    flashDefaultPartitionImage fullZipfile
        [("system.img", "/s"), ("boot.img", "/b")] =
      [("boot", "/b"), ("system", "/s")] ∧
    (∀ k, dlookup (flashDefaultPartitionImage fullZipfile
        [("system.img", "/s"), ("boot.img", "/b")]) k =
      if k = "system" then some "/s"
      else if k = "boot" then some "/b" else none) := by
  have h0 : dlookup [("system.img", "/s"), ("boot.img", "/b")] fullZipfile
      = none := by
    simp only [dlookup]
    rw [if_neg (fun h => h1 h.symm), if_neg (fun h => h2 h.symm)]
  have hm : flashDefaultPartitionImage fullZipfile
      [("system.img", "/s"), ("boot.img", "/b")] =
      [("boot", "/b"), ("system", "/s")] := by
    simp only [flashDefaultPartitionImage, defaultFlashImages, List.foldl, h0]
    rfl
  refine ⟨hm, fun k => ?_⟩
  rw [hm]
  simp only [dlookup]
  by_cases hb : k = "boot"
  · subst hb
    simp
  · rw [if_neg (fun h => hb h.symm)]
    by_cases hs : k = "system"
    · subst hs
      simp
    · rw [if_neg (fun h => hs h.symm), if_neg hs, if_neg hb]

/-- Witness for `flash_default_partition_map` at the real
`build_provider.FULL_ZIPFILE` value reported by the fetch provider family
(`full-zipfile`), evaluated at key `cache` (an excluded default entry). -/
theorem flash_default_partition_map_witness :
    dlookup (flashDefaultPartitionImage "full-zipfile"
        [("system.img", "/s"), ("boot.img", "/b")]) "cache" = none := by
  have h := (flash_default_partition_map "full-zipfile"
      (by decide) (by decide)).2 "cache"
  simpa using h

/-! ## Flasher-path lookup in `do_flash` (C9)

`Console.__init__` (console.py line 176) sets `self.tools_info = {}`, a dict
that is never reassigned to None.  `do_flash` (lines 561-568) therefore
always takes the `self.tools_info is not None` branch and evaluates
`self.tools_info[args.flasher_path]` before any device serial is resolved
(lines 570-580) and before any flashing call; when `args.flasher_path` is
None, or is a name never stored by a gcs fetch, that subscript raises
`KeyError`, which propagates out of the handler, so no `BuildFlasher` is
constructed and no session state is mutated.
-/

/-- A Python exception: class name and message. -/
structure PyExc where
  ename : String
  emsg : String
  deriving DecidableEq

/-- The value `Console.__init__` gives `self.tools_info` (console.py line
176): an empty dict — in particular not None. -/
def consoleInitToolsInfo : Option (List (String × String)) := some []

/-- The device resolution of `do_flash` (console.py lines 570-580): one
`BuildFlasher(serial, flasher_path)` per resolved serial — `args.serial` if
non-empty, else the `--set_serial` list, else the single unspecified
device `""`. -/
def resolveFlashers (serialArg : String) (serials : List String) :
    List String :=
  if serialArg ≠ "" then [serialArg]
  else if serials ≠ [] then serials
  else [""]

/-- The flasher-path resolution and device resolution prefix of `do_flash`
(console.py lines 561-580): returns the flasher path and the serials of the
constructed `BuildFlasher`s, or the exception that escapes first.  When the
result is an exception, control has left `do_flash` before any flasher is
constructed or any state is written. -/
def do_flash_resolve (tools_info : Option (List (String × String)))
    (flasherPathArg : Option String) (serialArg : String)
    (serials : List String) : Except PyExc (Option String × List String) :=
  match tools_info with
  | some tools =>
      match flasherPathArg with
      | none => .error ⟨"KeyError", "None"⟩
      | some key =>
          match dlookup tools key with
          | none => .error ⟨"KeyError", key⟩
          | some p => .ok (some p, resolveFlashers serialArg serials)
  | none => .ok (flasherPathArg, resolveFlashers serialArg serials)

/-- C9.  The console initializes `tools_info` to an empty dict, never None,
so `do_flash` always subscripts it with `args.flasher_path` before resolving
any device; an absent argument (None) or an argument naming a tool never
fetched makes the subscript raise `KeyError`, ending `do_flash` before any
flasher invocation and with the session state untouched. -/
theorem flash_flasher_path_key_error
    (tools : List (String × String)) (serialArg : String)
    (serials : List String) (key : String)
    (hkey : dlookup tools key = none) :
    consoleInitToolsInfo = some [] ∧
    do_flash_resolve (some tools) none serialArg serials =
      .error ⟨"KeyError", "None"⟩ ∧
    do_flash_resolve (some tools) (some key) serialArg serials =
      .error ⟨"KeyError", key⟩ := by
  refine ⟨rfl, rfl, ?_⟩
  simp [do_flash_resolve, hkey]

/-- Witness for `flash_flasher_path_key_error`: a fresh console (empty tools
dict) and `flash --flasher_path=fastboot`. -/
theorem flash_flasher_path_key_error_witness :
    do_flash_resolve (some []) (some "fastboot") "" [] =
      .error ⟨"KeyError", "fastboot"⟩ := by
  exact (flash_flasher_path_key_error [] "" [] "fastboot" rfl).2.2

/-! ## Command dispatch (C7)

`Console.onecmd` (console.py lines 1254-1277).  Given a list, it spawns one
`multiprocessing.Process` per sub-command, each running `onecmd` on its own
line, and joins them all before returning; given a string, it prints
`Command: <line>` (when the line is non-empty) and runs the matched handler
inside `try/except Exception`, printing `<type name>: <message>` and
returning None when the handler raises.  We embed a handler as a function
from the line to either a result or a raised exception, and the batch as the
per-line outcomes the joined processes produce.
-/

/-- What one `onecmd(line)` call produces: the lines it printed and the value
it returned (`none` models Python None, `some true` the exit signal). -/
structure CmdOutcome where
  printed : List String
  result : Option Bool
  deriving DecidableEq

/-- `onecmd` on a single string line (console.py lines 1271-1277): print the
command echo, run the handler, catch any exception at the dispatch boundary
as one `<ErrorKind>: <message>` line. -/
def onecmdLine (handler : String → Except PyExc (Option Bool))
    (line : String) : CmdOutcome :=
  let echo := if line = "" then [] else ["Command: " ++ line]
  match handler line with
  | .ok r => ⟨echo, r⟩
  | .error e => ⟨echo ++ [e.ename ++ ": " ++ e.emsg], none⟩

/-- `onecmd` on a list of lines (console.py lines 1260-1269): one process per
line, all joined before returning; the list collects every line's outcome. -/
def onecmdBatch (handler : String → Except PyExc (Option Bool))
    (lines : List String) : List CmdOutcome :=
  lines.map (onecmdLine handler)

/-- C7.  A handler exception is caught at the dispatch boundary and turned
into one printed `<ErrorKind>: <message>` line with a None result (the
session continues); and a batch of three lines whose second raises runs all
three to completion — the dispatcher returns only after all three outcomes
exist, the first and third complete normally, and the second's error is
reported distinctly in its own outcome. -/
theorem onecmd_isolates_failures
    (handler : String → Except PyExc (Option Bool))
    (l1 l2 l3 : String) (r1 r3 : Option Bool) (e : PyExc)
    (h1 : handler l1 = .ok r1) (h2 : handler l2 = .error e)
    (h3 : handler l3 = .ok r3) :
    (onecmdLine handler l2).printed =
      (if l2 = "" then [] else ["Command: " ++ l2]) ++
        [e.ename ++ ": " ++ e.emsg] ∧
    (onecmdLine handler l2).result = none ∧
    onecmdBatch handler [l1, l2, l3] =
      [onecmdLine handler l1, onecmdLine handler l2, onecmdLine handler l3] ∧
    (onecmdBatch handler [l1, l2, l3]).length = 3 ∧
    (onecmdLine handler l1).result = r1 ∧
    (onecmdLine handler l3).result = r3 := by
  refine ⟨?_, ?_, rfl, rfl, ?_, ?_⟩
  · simp [onecmdLine, h2]
  · simp [onecmdLine, h2]
  · simp [onecmdLine, h1]
  · simp [onecmdLine, h3]

/-- Witness for `onecmd_isolates_failures`: a concrete three-line batch whose
second line raises a `KeyError`. -/
theorem onecmd_isolates_failures_witness :
    (onecmdLine
        (fun s => if s = "flash" then .error ⟨"KeyError", "None"⟩
                  else .ok none)
        "flash").printed = ["Command: flash", "KeyError: None"] := by
  have h := onecmd_isolates_failures
      (fun s => if s = "flash" then .error ⟨"KeyError", "None"⟩
                else .ok none)
      "info" "flash" "exit" none none ⟨"KeyError", "None"⟩ rfl rfl rfl
  simpa using h.1

/-! ## `gsispl` version validation (C8)

`do_gsispl` (console.py lines 1119-1158): resolves a GSI path (from
`--gsi` if it names an existing file, else from `device_image_info`s
`system.img` entry), then validates `--version` with
`datetime.datetime.strptime(args.version, "%Y-%m-%d")`, printing an error
and returning on `ValueError`; only after a successful run of the
`change_spl.sh` shell command, and only when `--gsi` was not given, does it
write `device_image_info["system.img"] = output_path`.  The filesystem and
shell are oracles supplied as an environment record.
-/

/-- Whether `y` is a leap year (Python `datetime` uses the proleptic
Gregorian calendar). -/
def isLeapYear (y : Nat) : Bool :=
  (y % 4 = 0 && y % 100 ≠ 0) || y % 400 = 0

def daysInMonth (y m : Nat) : Nat :=
  if m = 2 then (if isLeapYear y then 29 else 28)
  else if m = 4 || m = 6 || m = 9 || m = 11 then 30
  else 31

/-- Splits a character list at every dash, the grouping `%Y-%m-%d` induces. -/
def splitDash : List Char → List (List Char)
  | [] => [[]]
  | c :: cs =>
      let rest := splitDash cs
      if c = '-' then [] :: rest
      else
        match rest with
        | [] => [[c]]
        | g :: gs => (c :: g) :: gs

/-- The numeric value of a decimal digit character, `none` otherwise. -/
def digitVal (c : Char) : Option Nat :=
  if '0' ≤ c && c ≤ '9' then some (c.toNat - 48) else none

def digitsToNatAux : List Char → Nat → Option Nat
  | [], acc => some acc
  | c :: cs, acc =>
      match digitVal c with
      | some d => digitsToNatAux cs (acc * 10 + d)
      | none => none

/-- The Nat a non-empty all-digit character list denotes, `none` otherwise. -/
def digitsToNat? : List Char → Option Nat
  | [] => none
  | c :: cs => digitsToNatAux (c :: cs) 0

/-- Model of `datetime.datetime.strptime(s, "%Y-%m-%d")`: a 4-digit year,
a 1-2 digit month in 1..12 and a 1-2 digit day valid for that month,
separated by single dashes; `none` models the `ValueError` Python raises
otherwise (e.g. for month 13). -/
def strptimeYmd (s : String) : Option (Nat × Nat × Nat) :=
  match splitDash s.data with
  | [ys, ms, ds] =>
      match digitsToNat? ys, digitsToNat? ms, digitsToNat? ds with
      | some y, some m, some d =>
          if ys.length = 4 && ms.length ≤ 2 && ds.length ≤ 2 &&
             1 ≤ m && m ≤ 12 && 1 ≤ d && d ≤ daysInMonth y m
          then some (y, m, d) else none
      | _, _, _ => none
  | _ => none

/-- Left-pads the decimal rendering of `n` with zeros to width `w`
(Python `"{:04d}".format` / `"{:02d}".format`). -/
def padZeros (w : Nat) (n : Nat) : String :=
  let s := toString n
  String.mk (List.replicate (w - s.length) '0') ++ s

/-- The oracles `do_gsispl` consults: whether `os.path.isfile(args.gsi)`
holds, the directory of the resolved image path, and the exit code and
stderr of the `change_spl.sh` command. -/
structure GsisplEnv where
  gsiArgIsFile : Bool
  absDirname : String
  shellErrCode : Nat
  shellStderr : String
  deriving DecidableEq

/-- How a `do_gsispl` invocation ends. -/
inductive GsisplResult
  | errNoImageAtPath
  | errNoImage
  | errNoVersion
  | errBadVersion
  | errShell (msg : String)
  | done (output_path : String)
  deriving DecidableEq

/-- The version-check tail of `do_gsispl` (console.py lines 1134-1158), after
a GSI path has been resolved: validates the version, runs the shell command,
and updates `device_image_info` only on shell success when `--gsi` was not
given. -/
def gsisplTail (env : GsisplEnv) (gsiArg : Option String) (_gsi_path : String)
    (version : String) (device_image_info : List (String × String)) :
    List (String × String) × GsisplResult :=
  if version = "" then (device_image_info, .errNoVersion)
  else
    match strptimeYmd version with
    | none => (device_image_info, .errBadVersion)
    | some (y, m, d) =>
        let v := padZeros 4 y ++ "-" ++ padZeros 2 m ++ "-" ++ padZeros 2 d
        let output_path := env.absDirname ++ "/system-" ++ v ++ ".img"
        if env.shellErrCode = 0 then
          match gsiArg with
          | none => (dset device_image_info "system.img" output_path,
                     .done output_path)
          | some _ => (device_image_info, .done output_path)
        else (device_image_info, .errShell env.shellStderr)

/-- `do_gsispl` (console.py lines 1119-1158): resolve the GSI path, then run
the version-check tail.  The first component is `device_image_info` after
the call (the only shared map the handler writes). -/
def do_gsispl (env : GsisplEnv) (gsiArg : Option String) (version : String)
    (device_image_info : List (String × String)) :
    List (String × String) × GsisplResult :=
  match gsiArg with
  | some p =>
      if env.gsiArgIsFile then
        gsisplTail env (some p) p version device_image_info
      else (device_image_info, .errNoImageAtPath)
  | none =>
      match dlookup device_image_info "system.img" with
      | some p => gsisplTail env none p version device_image_info
      | none => (device_image_info, .errNoImage)

/-- Whether a `do_gsispl` run ended in a reported error. -/
def gsisplIsError : GsisplResult → Bool
  | .done _ => false
  | _ => true

/-- C8.  For every `gsispl` invocation whose version string is not a valid
YYYY-mm-dd date, the command reports an error and returns with
`device_image_info` (the only Shared Session State map the handler writes)
unchanged. -/
theorem gsispl_rejects_bad_version (env : GsisplEnv) (gsiArg : Option String)
    (version : String) (device_image_info : List (String × String))
    (hbad : strptimeYmd version = none) :
    (do_gsispl env gsiArg version device_image_info).1 = device_image_info ∧
    gsisplIsError (do_gsispl env gsiArg version device_image_info).2 =
      true := by
  have htail : ∀ p, gsisplTail env gsiArg p version device_image_info =
      (device_image_info,
        if version = "" then .errNoVersion else .errBadVersion) := by
    intro p
    by_cases hv : version = ""
    · simp [gsisplTail, hv]
    · simp [gsisplTail, hv, hbad]
  cases gsiArg with
  | some p =>
      by_cases hf : env.gsiArgIsFile
      · simp only [do_gsispl, hf, if_true, htail p]
        by_cases hv : version = "" <;> simp [hv, gsisplIsError]
      · simp [do_gsispl, hf, gsisplIsError]
  | none =>
      cases hsys : dlookup device_image_info "system.img" with
      | some p =>
          simp only [do_gsispl, hsys, htail p]
          by_cases hv : version = "" <;> simp [hv, gsisplIsError]
      | none => simp [do_gsispl, hsys, gsisplIsError]

/-- Witness for `gsispl_rejects_bad_version`: the malformed version
`2020-13-40` (month 13) against a state holding a fetched system image. -/
theorem gsispl_rejects_bad_version_witness :
    (do_gsispl ⟨false, "/tmp", 0, ""⟩ none "2020-13-40"
        [("system.img", "/s")]).1 = [("system.img", "/s")] := by
  exact (gsispl_rejects_bad_version ⟨false, "/tmp", 0, ""⟩ none "2020-13-40"
      [("system.img", "/s")] (by rfl)).1

/-! ## `VtiEndpointClient.LeaseJob` (C10)

`vti_endpoint_client.py` lines 174-207.  The POST to `job_queue/v1/get` is an
external collaborator; its observable effect on `LeaseJob` is the response
status and the parsed JSON body, which we pass in as a record.  The job dict
is modelled by the one field `LeaseJob` reads, `test_name`; the returned
empty dict `{}` is modelled as `none` in the second component.
-/

structure VtiJob where
  test_name : String
  deriving DecidableEq

/-- The response to the job-lease POST: whether `status_code` equalled
`requests.codes.ok`, the `return_code` field when present, and the `jobs`
list when the key is present. -/
structure LeaseResponse where
  status_ok : Bool
  return_code : Option String
  jobs : Option (List VtiJob)
  deriving DecidableEq

/-- Python `s.split("/")[0]`: the characters before the first slash. -/
def splitSlashHead (s : String) : String :=
  String.mk (s.data.takeWhile (fun c => !(c = '/')))

/-- The tail of `LeaseJob` over the `jobs` value (vti_endpoint_client.py
lines 199-207): absent or empty list gives `(None, {})`, else the loop
returns on the first job. -/
def leaseJobsTail : Option (List VtiJob) → Option String × Option VtiJob
  | none => (none, none)
  | some [] => (none, none)
  | some (j :: _) => (some (splitSlashHead j.test_name), some j)

/-- `VtiEndpointClient.LeaseJob` (vti_endpoint_client.py lines 174-207) as a
function of the hostname and the response. -/
def LeaseJob (hostname : String) (resp : LeaseResponse) :
    Option String × Option VtiJob :=
  if hostname = "" then (none, none)
  else if !resp.status_ok then (none, none)
  else
    match resp.return_code with
    | some rc => if !(rc = "SUCCESS") then (none, none) else leaseJobsTail resp.jobs
    | none => leaseJobsTail resp.jobs

/-- C10.  `LeaseJob` returns `(None, {})` on an empty hostname, a non-ok
HTTP status, a `return_code` other than SUCCESS, or an absent or empty jobs
list; otherwise it returns the first job's `test_name` prefix before the
first slash together with that job. -/
theorem lease_job_cases (hostname : String) (resp : LeaseResponse)
    (j : VtiJob) (rest : List VtiJob) :
    (∀ r, LeaseJob "" r = (none, none)) ∧
    (resp.status_ok = false → LeaseJob hostname resp = (none, none)) ∧
    (∀ rc, resp.return_code = some rc → rc ≠ "SUCCESS" →
      hostname ≠ "" → LeaseJob hostname resp = (none, none)) ∧
    (resp.jobs = none ∨ resp.jobs = some [] →
      LeaseJob hostname resp = (none, none)) ∧
    (hostname ≠ "" → resp.status_ok = true →
      (resp.return_code = none ∨ resp.return_code = some "SUCCESS") →
      resp.jobs = some (j :: rest) →
      LeaseJob hostname resp =
        (some (splitSlashHead j.test_name), some j)) := by
  refine ⟨fun r => rfl, ?_, ?_, ?_, ?_⟩
  · intro hstat
    by_cases hh : hostname = "" <;> simp [LeaseJob, hh, hstat]
  · intro rc hrc hne hh
    simp only [LeaseJob, if_neg hh, hrc]
    cases hstat : resp.status_ok <;> simp [hne]
  · intro hjobs
    by_cases hh : hostname = ""
    · simp [LeaseJob, hh]
    · simp only [LeaseJob, if_neg hh]
      cases hstat : resp.status_ok
      · simp
      · cases hrc : resp.return_code with
        | none => cases hjobs with
            | inl h => simp [h, leaseJobsTail]
            | inr h => simp [h, leaseJobsTail]
        | some rc =>
            by_cases hsucc : rc = "SUCCESS" <;>
              cases hjobs with
              | inl h => simp [hsucc, h, leaseJobsTail]
              | inr h => simp [hsucc, h, leaseJobsTail]
  · intro hh hstat hrc hjobs
    simp only [LeaseJob, if_neg hh, hstat, hjobs]
    cases hrc with
    | inl h => simp [h, leaseJobsTail]
    | inr h => simp [h, leaseJobsTail]

/-- Witness for `lease_job_cases`: a successful lease of one job whose
`test_name` is `vts/vts-star`, and the empty-jobs failure, at concrete
inputs. -/
theorem lease_job_cases_witness :
    LeaseJob "host0" ⟨true, some "SUCCESS", some [⟨"vts/vts-star"⟩]⟩ =
      (some "vts", some ⟨"vts/vts-star"⟩) ∧
    LeaseJob "host0" ⟨true, some "FAIL", some [⟨"vts/vts-star"⟩]⟩ =
      (none, none) := by
  constructor
  · have h := (lease_job_cases "host0"
        ⟨true, some "SUCCESS", some [⟨"vts/vts-star"⟩]⟩
        ⟨"vts/vts-star"⟩ []).2.2.2.2
        (by decide) rfl (Or.inr rfl) rfl
    simpa using h
  · exact (lease_job_cases "host0"
        ⟨true, some "FAIL", some [⟨"vts/vts-star"⟩]⟩
        ⟨"vts/vts-star"⟩ []).2.2.1 "FAIL" rfl (by decide) (by decide)
